import Mathlib

/-!
Shallow embedding of the xotpad core (X.25 virtual-circuit engine and PAD
adapter) together with proofs about it.  Definitions are translated from
the Rust sources in `src/libxotpad/src/x25/vc.rs`, `src/libxotpad/src/pad.rs`,
`src/libxotpad/src/x3.rs`, `src/libxotpad/src/x29.rs` and `src/src/x3.rs`.
Machine bytes are modelled as `Nat` (all values of interest are below 256);
`Bytes` buffers become `List Nat`; mutation becomes explicit state passing;
panics (`todo!`, `panic!` in the source) become `none` / explicit outcome
constructors.
-/

namespace Xotpad

/-- A byte, modelled as a natural number; values of interest are below 256. -/
abbrev Byte := Nat

/-- X.25 sequence-number modulus (8 or 128), as in `x25/seq.rs`. -/
inductive X25Modulo where
  | normal
  | extended
deriving DecidableEq, Repr

/-- Numeric value of the modulus: `normal` is 8, `extended` is 128. -/
def X25Modulo.toNat : X25Modulo → Nat
  | .normal => 8
  | .extended => 128

/-- Decoded X.25 Data packet, restricted to the fields the virtual-circuit
engine inspects (`X25Data` in `x25/packet.rs`): sequence numbers, the
qualifier (Q) bit, the more (M) bit and the payload.  The per-VC constant
`modulo` and `channel` fields and the delivery bit are elided. -/
structure X25Data where
  send_seq : Nat
  recv_seq : Nat
  qualifier : Bool
  more : Bool
  user_data : List Byte
deriving DecidableEq, Repr

/-- Model of `queue.iter().position(|d| !d.more)` used by `pop_complete_data`
in `x25/vc.rs`: index of the first packet whose more flag is clear. -/
def position_not_more : List X25Data → Option Nat
  | [] => none
  | d :: rest => if !d.more then some 0 else (position_not_more rest).map (· + 1)

/-- `pop_complete_data` from `x25/vc.rs`: find the first queued Data packet
whose more flag is false, remove the queue prefix up to and including it,
and return the concatenated payload of that prefix together with the
qualifier left by the loop (the qualifier of the last drained fragment).
The Rust function mutates the queue in place; here the updated queue is
returned as the second component. -/
def pop_complete_data (queue : List X25Data) : Option (List Byte × Bool) × List X25Data :=
  if queue.isEmpty then (none, queue)
  else
    match position_not_more queue with
    | none => (none, queue)
    | some index =>
      let packets := queue.take (index + 1)
      let user_data := packets.foldl (fun acc p => acc ++ p.user_data) []
      let qualifier := packets.foldl (fun _ p => p.qualifier) false
      (some (user_data, qualifier), queue.drop (index + 1))

theorem position_not_more_all_more (q : List X25Data) (h : ∀ p ∈ q, p.more = true) :
    position_not_more q = none := by
  induction q with
  | nil => rfl
  | cons d rest ih =>
    have hd : d.more = true := h d (List.mem_cons_self d rest)
    simp [position_not_more, hd, ih fun p hp => h p (List.mem_cons_of_mem d hp)]

theorem position_not_more_split (qs : List X25Data) (pk : X25Data) (rest : List X25Data)
    (hmid : ∀ p ∈ qs, p.more = true) (hlast : pk.more = false) :
    position_not_more (qs ++ pk :: rest) = some qs.length := by
  induction qs with
  | nil => simp [position_not_more, hlast]
  | cons q qs ih =>
    have hq : q.more = true := hmid q (List.mem_cons_self q qs)
    have ih' := ih fun p hp => hmid p (List.mem_cons_of_mem q hp)
    simp [position_not_more, hq, ih']

theorem foldl_append_user_data (l : List X25Data) (acc : List Byte) :
    l.foldl (fun acc p => acc ++ p.user_data) acc = acc ++ (l.map X25Data.user_data).flatten := by
  induction l generalizing acc with
  | nil => simp
  | cons p l ih => simp [ih]

theorem foldl_qualifier_last (l : List X25Data) (pk : X25Data) (b : Bool) :
    (l ++ [pk]).foldl (fun _ p => p.qualifier) b = pk.qualifier := by
  induction l generalizing b with
  | nil => rfl
  | cons p l ih =>
    simp only [List.cons_append, List.foldl_cons]
    exact ih p.qualifier

/-- C3: for a receive-data queue whose smallest complete prefix is
`qs ++ [pk]` (every packet of `qs` has more=true and `pk` has more=false),
`pop_complete_data` — and hence `Svc::recv`, which returns its result
whenever it is `some` — returns the concatenation of the payloads of that
prefix in queue order paired with the qualifier of the final fragment `pk`,
and removes exactly that prefix from the queue. -/
theorem recv_returns_reassembled_message
    (qs : List X25Data) (pk : X25Data) (rest : List X25Data)
    (hmid : ∀ p ∈ qs, p.more = true) (hlast : pk.more = false) :
    pop_complete_data (qs ++ pk :: rest) =
      (some ((((qs ++ [pk]).map X25Data.user_data).flatten), pk.qualifier), rest) := by
  have hpos := position_not_more_split qs pk rest hmid hlast
  have hne : (qs ++ pk :: rest).isEmpty = false := by
    cases qs <;> simp
  unfold pop_complete_data
  rw [hne, hpos]
  simp only
  have htake : (qs ++ pk :: rest).take (qs.length + 1) = qs ++ [pk] := by
    rw [List.take_append_eq_append_take]
    simp
  have hdrop : (qs ++ pk :: rest).drop (qs.length + 1) = rest := by
    rw [List.drop_append_eq_append_drop]
    simp
  rw [htake, hdrop, foldl_append_user_data, foldl_qualifier_last]
  simp

/-- Witness for C3 at a concrete two-fragment message. -/
theorem recv_returns_reassembled_message_witness :
    pop_complete_data
        [⟨0, 0, false, true, [1, 2]⟩, ⟨1, 0, true, false, [3]⟩, ⟨2, 0, false, true, [9]⟩] =
      (some ([1, 2, 3], true), [⟨2, 0, false, true, [9]⟩]) := by
  have h := recv_returns_reassembled_message
    [⟨0, 0, false, true, [1, 2]⟩] ⟨1, 0, true, false, [3]⟩ [⟨2, 0, false, true, [9]⟩]
    (by decide) (by decide)
  simpa using h

/-- C9: if no queued packet has more=false, `pop_complete_data` returns
`none` and leaves the queue exactly unchanged, so `Svc::recv` never
consumes a partial multi-fragment message; when such a packet exists, only
the prefix up to and including the first one is removed and every later
queue element is untouched. -/
theorem pop_complete_data_frame :
    (∀ q : List X25Data, (∀ p ∈ q, p.more = true) → pop_complete_data q = (none, q)) ∧
    (∀ (qs : List X25Data) (pk : X25Data) (rest : List X25Data),
      (∀ p ∈ qs, p.more = true) → pk.more = false →
      (pop_complete_data (qs ++ pk :: rest)).2 = rest) := by
  constructor
  · intro q h
    unfold pop_complete_data
    rw [position_not_more_all_more q h]
    cases q <;> simp
  · intro qs pk rest hmid hlast
    have hpos := position_not_more_split qs pk rest hmid hlast
    have hne : (qs ++ pk :: rest).isEmpty = false := by
      cases qs <;> simp
    unfold pop_complete_data
    rw [hne, hpos]
    simp only
    rw [List.drop_append_eq_append_drop]
    simp

/-- Witness for C9 applying both parts at concrete queues. -/
theorem pop_complete_data_frame_witness :
    pop_complete_data [⟨0, 0, false, true, [1]⟩, ⟨1, 0, false, true, [2]⟩] =
      (none, [⟨0, 0, false, true, [1]⟩, ⟨1, 0, false, true, [2]⟩]) ∧
    (pop_complete_data
        [⟨0, 0, false, true, [1]⟩, ⟨1, 0, true, false, [2]⟩, ⟨2, 0, false, true, [3]⟩]).2 =
      [⟨2, 0, false, true, [3]⟩] := by
  constructor
  · exact pop_complete_data_frame.1 [⟨0, 0, false, true, [1]⟩, ⟨1, 0, false, true, [2]⟩]
      (by decide)
  · exact pop_complete_data_frame.2 [⟨0, 0, false, true, [1]⟩] ⟨1, 0, true, false, [2]⟩
      [⟨2, 0, false, true, [3]⟩] (by decide) (by decide)

/-- Modelled from the spec: the send window of `x25/seq.rs` (`Window`),
whose source file is not included under `src/`.  Spec §4.3: "Send window
state is (start, size, modulo). `is_open` ⇔ (next − start) mod N < size.
`seq` = next, `incr` advances next. `update_start(s)` succeeds iff
s ∈ \x7bstart, start+1, …, next\x7d mod N (a valid cumulative ack of 0 or
more in-flight packets), then sets start := s." -/
structure Window where
  start : Nat
  size : Nat
  next : Nat
  modulo : X25Modulo
deriving DecidableEq, Repr

/-- Modelled from the spec: the window is open when the distance from start
to next (mod N) is below the window size. -/
def Window.is_open (w : Window) : Bool :=
  (w.next + w.modulo.toNat - w.start) % w.modulo.toNat < w.size

/-- Modelled from the spec: the sequence number the next sent packet uses. -/
def Window.seq (w : Window) : Nat := w.next

/-- Modelled from the spec: advance the next send sequence by one mod N. -/
def Window.incr (w : Window) : Window :=
  { w with next := (w.next + 1) % w.modulo.toNat }

/-- Modelled from the spec: `update_start(s)` succeeds iff `s` lies in
\x7bstart, start+1, …, next\x7d mod N, and then sets start to `s`; on failure
the window is unchanged.  Returned as (success flag, updated window) to
mirror the mutating Rust method. -/
def Window.update_start (w : Window) (s : Nat) : Bool × Window :=
  let n := w.modulo.toNat
  if (s + n - w.start) % n ≤ (w.next + n - w.start) % n then
    (true, { w with start := s })
  else (false, w)

/-- Modelled from the spec: `next_seq` from `x25/seq.rs`, advancing a
sequence number by one modulo N. -/
def next_seq (seq : Nat) (modulo : X25Modulo) : Nat :=
  (seq + 1) % modulo.toNat

/-- `DataTransferState` from `x25/vc.rs`: the data-transfer substate. -/
structure DataTransferState where
  modulo : X25Modulo
  send_window : Window
  recv_seq : Nat
deriving DecidableEq, Repr

/-- `DataTransferState::update_recv_seq` from `x25/vc.rs`: fails when the
incoming send sequence differs from the expected `recv_seq`, otherwise
advances `recv_seq` by one mod N.  Returned as (success flag, updated
state) to mirror the mutating Rust method. -/
def DataTransferState.update_recv_seq (dt : DataTransferState) (seq : Nat) :
    Bool × DataTransferState :=
  if seq ≠ dt.recv_seq then (false, dt)
  else (true, { dt with recv_seq := next_seq seq dt.modulo })

/-- `DataTransferState::update_send_window` from `x25/vc.rs`: delegate to
`Window::update_start`. -/
def DataTransferState.update_send_window (dt : DataTransferState) (seq : Nat) :
    Bool × DataTransferState :=
  let r := dt.send_window.update_start seq
  (r.1, { dt with send_window := r.2 })

/-- `X25ClearRequest` from `x25/packet.rs`, restricted to the cause and
diagnostic codes the virtual-circuit engine and its clients inspect. -/
structure X25ClearRequest where
  cause_code : Nat
  diagnostic_code : Nat
deriving DecidableEq, Repr

/-- `ClearInitiator` from `x25/vc.rs`: who initiated the clearing of a
virtual circuit.  `timeOut` carries the identifier of the expired timer. -/
inductive ClearInitiator where
  | localUser
  | remote (clear_request : X25ClearRequest)
  | timeOut (timer : Nat)
deriving DecidableEq, Repr

/-- `VcState` from `x25/vc.rs`.  The `Instant` timestamps recorded in the
waiting states and the packets stored in `Called` / the optional
`X25ClearConfirm` of `Cleared` are elided except where claims inspect
them: `Cleared` keeps its initiator, and whether a clear confirm was
recorded is kept as a flag. -/
inductive VcState where
  | ready
  | waitCallAccept
  | dataTransfer (dt : DataTransferState)
  | waitResetConfirm
  | waitClearConfirm (initiator : ClearInitiator)
  | called
  | cleared (initiator : ClearInitiator) (has_clear_confirm : Bool)
  | outOfOrder
deriving DecidableEq, Repr

/-- `VcState::is_connected` from `x25/vc.rs`: connected states are
`DataTransfer` and `WaitResetConfirm`. -/
def VcState.is_connected : VcState → Bool
  | .dataTransfer _ => true
  | .waitResetConfirm => true
  | _ => false

/-- Outcome of `Svc::call` as observed by the caller. -/
inductive CallOutcome where
  | ok
  | connectionReset (cause_code diagnostic_code : Nat)
  | timedOut
  | linkOutOfOrder
  | panicked
deriving DecidableEq, Repr

/-- The decision `Svc::call` (x25/vc.rs) takes once its wait loop observes
that the state has left `WaitCallAccept`: with the receive-data queue and
the state read under the lock, the call succeeds if the queue is non-empty
or the state is connected; otherwise the error is derived from the state.
The `panic!("unexpected state")` arm is modelled as `panicked`. -/
def call_result (recv_queue : List X25Data) (state : VcState) : CallOutcome :=
  if recv_queue.isEmpty && !state.is_connected then
    match state with
    | .cleared (.remote clear_request) _ =>
        .connectionReset clear_request.cause_code clear_request.diagnostic_code
    | .waitClearConfirm (.timeOut _) => .timedOut
    | .cleared (.timeOut _) _ => .timedOut
    | .outOfOrder => .linkOutOfOrder
    | _ => .panicked
  else .ok

/-- C1: once `Svc::call` unblocks after the state leaves `WaitCallAccept`,
a non-empty receive-data queue makes the call succeed regardless of the
final state; with an empty queue and a non-connected final state the call
returns ConnectionReset with the peer's cause and diagnostic codes when
the peer cleared, TimedOut when the clear was initiated by a protection
timer (whether the clear is still awaiting confirmation or already
confirmed), and the link-out-of-order error in state `OutOfOrder`. -/
theorem call_unblock_outcome (q : List X25Data) (s : VcState) :
    (q ≠ [] → call_result q s = .ok) ∧
    (q = [] → s.is_connected = false →
      (∀ cr b, s = .cleared (.remote cr) b →
        call_result q s = .connectionReset cr.cause_code cr.diagnostic_code) ∧
      (∀ t, s = .waitClearConfirm (.timeOut t) → call_result q s = .timedOut) ∧
      (∀ t b, s = .cleared (.timeOut t) b → call_result q s = .timedOut) ∧
      (s = .outOfOrder → call_result q s = .linkOutOfOrder)) := by
  constructor
  · intro hq
    have : q.isEmpty = false := by
      cases q with
      | nil => exact absurd rfl hq
      | cons a l => rfl
    simp [call_result, this]
  · intro hq hs
    subst hq
    refine ⟨?_, ?_, ?_, ?_⟩
    · intro cr b hsv
      subst hsv
      simp [call_result, VcState.is_connected]
    · intro t hsv
      subst hsv
      simp [call_result, VcState.is_connected]
    · intro t b hsv
      subst hsv
      simp [call_result, VcState.is_connected]
    · intro hsv
      subst hsv
      simp [call_result, VcState.is_connected]

/-- Witness for C1, exercising the success case and each error case at
concrete inputs. -/
theorem call_unblock_outcome_witness :
    call_result [⟨0, 0, false, false, [1]⟩] (.cleared (.remote ⟨0, 0⟩) false) = .ok ∧
    call_result [] (.cleared (.remote ⟨5, 77⟩) false) = .connectionReset 5 77 ∧
    call_result [] (.waitClearConfirm (.timeOut 21)) = .timedOut ∧
    call_result [] (.cleared (.timeOut 21) true) = .timedOut ∧
    call_result [] .outOfOrder = .linkOutOfOrder := by
  refine ⟨?_, ?_, ?_, ?_, ?_⟩
  · exact (call_unblock_outcome [⟨0, 0, false, false, [1]⟩]
      (.cleared (.remote ⟨0, 0⟩) false)).1 (by simp)
  · exact ((call_unblock_outcome [] (.cleared (.remote ⟨5, 77⟩) false)).2 rfl
      (by decide)).1 ⟨5, 77⟩ false rfl
  · exact ((call_unblock_outcome [] (.waitClearConfirm (.timeOut 21))).2 rfl
      (by decide)).2.1 21 rfl
  · exact ((call_unblock_outcome [] (.cleared (.timeOut 21) true)).2 rfl
      (by decide)).2.2.1 21 true rfl
  · exact ((call_unblock_outcome [] .outOfOrder).2 rfl (by decide)).2.2.2 rfl

/-- `SendData` from `x25/vc.rs`: one queued outgoing fragment. -/
structure SendData where
  user_data : List Byte
  qualifier : Bool
  more : Bool
deriving DecidableEq, Repr

/-- A packet emitted by the engine onto the link, restricted to the fields
the claims inspect; the per-VC constant modulo and channel fields are
elided. -/
inductive Emit where
  | resetRequest (cause_code diagnostic_code : Nat)
  | receiveReady (recv_seq : Nat)
  | dataPacket (send_seq recv_seq : Nat) (qualifier more : Bool) (user_data : List Byte)
deriving DecidableEq, Repr

/-- The loop of `VcInner::send_queued_data` from `x25/vc.rs`, with link
I/O assumed to succeed: while the send-data queue is non-empty and the
send window is open, emit the front fragment as a Data packet carrying the
window's next send sequence and the current `recv_seq`, pop the fragment
and advance the window.  Returns the updated substate, the remaining queue
and the emitted packets in order. -/
def send_queued_data (dt : DataTransferState) :
    List SendData → DataTransferState × List SendData × List Emit
  | [] => (dt, [], [])
  | d :: rest =>
    if dt.send_window.is_open then
      let e := Emit.dataPacket dt.send_window.seq dt.recv_seq d.qualifier d.more d.user_data
      let dt1 := { dt with send_window := dt.send_window.incr }
      let r := send_queued_data dt1 rest
      (r.1, r.2.1, e :: r.2.2)
    else (dt, d :: rest, [])

/-- The `DataTransfer` + Data-packet branch of `VcInner::handle_in_packet`
from `x25/vc.rs`, with link I/O assumed to succeed.  The send-sequence
check (`update_recv_seq`) runs first and on failure emits Reset Request
(5,1); then the receive-sequence check (`update_send_window`) on failure
emits Reset Request (5,2); only when both pass is the packet appended to
the receive-data queue (`queue_recv_data`; its oversize and
inconsistent-qualifier diagnostics are TODO no-ops in the source), queued
sends are attempted, and a Receive Ready is emitted when nothing was sent
this turn (`is_local_ready` is the constant true in the source). -/
def handle_data_in (dt : DataTransferState) (data : X25Data)
    (send_queue : List SendData) (recv_queue : List X25Data) :
    VcState × List SendData × List X25Data × List Emit :=
  let r1 := dt.update_recv_seq data.send_seq
  if !r1.1 then (.waitResetConfirm, send_queue, recv_queue, [.resetRequest 5 1])
  else
    let r2 := r1.2.update_send_window data.recv_seq
    if !r2.1 then (.waitResetConfirm, send_queue, recv_queue, [.resetRequest 5 2])
    else
      let recv_queue1 := recv_queue ++ [data]
      let r3 := send_queued_data r2.2 send_queue
      if r3.2.2.length = 0 then
        (.dataTransfer r3.1, r3.2.1, recv_queue1, r3.2.2 ++ [.receiveReady r3.1.recv_seq])
      else (.dataTransfer r3.1, r3.2.1, recv_queue1, r3.2.2)

/-- C2: in state DataTransfer, an incoming Data packet whose send sequence
differs from the expected `recv_seq` makes the engine emit Reset Request
with cause 5 and diagnostic 1 and enter `WaitResetConfirm` without
touching the receive-data queue; otherwise, when its receive sequence is
not a valid acknowledgment for the current send window, the engine emits
Reset Request with cause 5 and diagnostic 2 and enters `WaitResetConfirm`,
again without enqueueing; only when both checks pass (send sequence first)
is the payload appended to the receive-data queue. -/
theorem data_packet_sequence_checks (dt : DataTransferState) (d : X25Data)
    (sq : List SendData) (rq : List X25Data) :
    (d.send_seq ≠ dt.recv_seq →
      handle_data_in dt d sq rq = (.waitResetConfirm, sq, rq, [.resetRequest 5 1])) ∧
    (d.send_seq = dt.recv_seq → (dt.send_window.update_start d.recv_seq).1 = false →
      handle_data_in dt d sq rq = (.waitResetConfirm, sq, rq, [.resetRequest 5 2])) ∧
    (d.send_seq = dt.recv_seq → (dt.send_window.update_start d.recv_seq).1 = true →
      (handle_data_in dt d sq rq).2.2.1 = rq ++ [d]) := by
  refine ⟨?_, ?_, ?_⟩
  · intro h
    simp [handle_data_in, DataTransferState.update_recv_seq, h]
  · intro h hw
    simp [handle_data_in, DataTransferState.update_recv_seq, h,
      DataTransferState.update_send_window, hw]
  · intro h hw
    simp only [handle_data_in, DataTransferState.update_recv_seq,
      DataTransferState.update_send_window, h]
    simp [hw]
    split <;> simp

/-- Witness for C2 exercising the three branches at concrete inputs, over
a modulo-8 window with start 0, size 2, next 0 and expected recv_seq 0. -/
theorem data_packet_sequence_checks_witness :
    handle_data_in ⟨.normal, ⟨0, 2, 0, .normal⟩, 0⟩ ⟨1, 0, false, false, [7]⟩ [] [] =
      (.waitResetConfirm, [], [], [.resetRequest 5 1]) ∧
    handle_data_in ⟨.normal, ⟨0, 2, 0, .normal⟩, 0⟩ ⟨0, 3, false, false, [7]⟩ [] [] =
      (.waitResetConfirm, [], [], [.resetRequest 5 2]) ∧
    (handle_data_in ⟨.normal, ⟨0, 2, 0, .normal⟩, 0⟩ ⟨0, 0, false, false, [7]⟩ [] []).2.2.1 =
      [⟨0, 0, false, false, [7]⟩] := by
  refine ⟨?_, ?_, ?_⟩
  · exact (data_packet_sequence_checks ⟨.normal, ⟨0, 2, 0, .normal⟩, 0⟩
      ⟨1, 0, false, false, [7]⟩ [] []).1 (by decide)
  · exact (data_packet_sequence_checks ⟨.normal, ⟨0, 2, 0, .normal⟩, 0⟩
      ⟨0, 3, false, false, [7]⟩ [] []).2.1 rfl (by decide)
  · exact (data_packet_sequence_checks ⟨.normal, ⟨0, 2, 0, .normal⟩, 0⟩
      ⟨0, 0, false, false, [7]⟩ [] []).2.2 rfl (by decide)

/-- `X25Facility` from `x25/facility.rs` (file not under `src/`), restricted
to the two facilities the negotiation code in `x25/vc.rs` pattern-matches
on; any other facility is collapsed into `unknown`. -/
inductive X25Facility where
  | packetSize (from_called from_calling : Nat)
  | windowSize (from_called from_calling : Nat)
  | unknown
deriving DecidableEq, Repr

/-- `X25Params` from `x25/params.rs` (file not under `src/`), restricted to
the fields the negotiation code in `x25/vc.rs` reads and writes; spec §3
lists the full parameter set (address and timers are elided). -/
structure X25Params where
  modulo : X25Modulo
  send_packet_size : Nat
  recv_packet_size : Nat
  send_window_size : Nat
  recv_window_size : Nat
deriving DecidableEq, Repr

/-- `X25CallAccept` from `x25/packet.rs`, restricted to the fields
`negotiate_calling_params` reads. -/
structure X25CallAccept where
  modulo : X25Modulo
  facilities : List X25Facility
deriving DecidableEq, Repr

/-- `X25CallRequest` from `x25/packet.rs`, restricted to the fields
`negotiate_called_params` reads. -/
structure X25CallRequest where
  modulo : X25Modulo
  facilities : List X25Facility
deriving DecidableEq, Repr

/-- `get_packet_size` from `x25/vc.rs`: first packet-size facility, as
(from_called, from_calling). -/
def get_packet_size : List X25Facility → Option (Nat × Nat)
  | [] => none
  | .packetSize from_called from_calling :: _ => some (from_called, from_calling)
  | _ :: rest => get_packet_size rest

/-- `get_window_size` from `x25/vc.rs`: first window-size facility, as
(from_called, from_calling). -/
def get_window_size : List X25Facility → Option (Nat × Nat)
  | [] => none
  | .windowSize from_called from_calling :: _ => some (from_called, from_calling)
  | _ :: rest => get_window_size rest

/-- `clamp_window_size` from `x25/vc.rs`: window sizes are clamped to
modulo − 1. -/
def clamp_window_size (size : Nat) (modulo : X25Modulo) : Nat :=
  min size (modulo.toNat - 1)

/-- `negotiate_calling_params` from `x25/vc.rs`: negotiating from a
received Call Accept, we are the calling party, so `from_calling` is our
send side and `from_called` our receive side. -/
def negotiate_calling_params (call_accept : X25CallAccept) (params : X25Params) : X25Params :=
  let params1 := { params with modulo := call_accept.modulo }
  let params2 :=
    match get_packet_size call_accept.facilities with
    | some (from_called, from_calling) =>
      { params1 with send_packet_size := from_calling, recv_packet_size := from_called }
    | none => params1
  match get_window_size call_accept.facilities with
  | some (from_called, from_calling) =>
    { params2 with
      send_window_size := clamp_window_size from_calling params2.modulo,
      recv_window_size := clamp_window_size from_called params2.modulo }
  | none => params2

/-- `negotiate_called_params` from `x25/vc.rs`: negotiating from a received
Call Request, we are the called party, so `from_called` is our send side
and `from_calling` our receive side. -/
def negotiate_called_params (call_request : X25CallRequest) (params : X25Params) : X25Params :=
  let params1 := { params with modulo := call_request.modulo }
  let params2 :=
    match get_packet_size call_request.facilities with
    | some (from_called, from_calling) =>
      { params1 with send_packet_size := from_called, recv_packet_size := from_calling }
    | none => params1
  match get_window_size call_request.facilities with
  | some (from_called, from_calling) =>
    { params2 with
      send_window_size := clamp_window_size from_called params2.modulo,
      recv_window_size := clamp_window_size from_calling params2.modulo }
  | none => params2

/-- C4: a Call Accept carrying packet-size facility (from_called = R,
from_calling = S) and window-size facility (from_called = WR,
from_calling = WS) makes the calling side negotiate
recv_packet_size = R, send_packet_size = S,
recv_window_size = min WR (modulo − 1) and
send_window_size = min WS (modulo − 1); the called side negotiating from a
Call Request carrying the same facility values assigns them swapped:
send_packet_size = R, recv_packet_size = S, send_window_size clamped from
WR and recv_window_size clamped from WS. -/
theorem facility_negotiation_symmetry
    (R S WR WS : Nat) (m : X25Modulo) (fa fr : List X25Facility) (p q : X25Params)
    (haps : get_packet_size fa = some (R, S)) (haws : get_window_size fa = some (WR, WS))
    (hrps : get_packet_size fr = some (R, S)) (hrws : get_window_size fr = some (WR, WS)) :
    ((negotiate_calling_params ⟨m, fa⟩ p).recv_packet_size = R ∧
      (negotiate_calling_params ⟨m, fa⟩ p).send_packet_size = S ∧
      (negotiate_calling_params ⟨m, fa⟩ p).recv_window_size = min WR (m.toNat - 1) ∧
      (negotiate_calling_params ⟨m, fa⟩ p).send_window_size = min WS (m.toNat - 1)) ∧
    ((negotiate_called_params ⟨m, fr⟩ q).send_packet_size = R ∧
      (negotiate_called_params ⟨m, fr⟩ q).recv_packet_size = S ∧
      (negotiate_called_params ⟨m, fr⟩ q).send_window_size = min WR (m.toNat - 1) ∧
      (negotiate_called_params ⟨m, fr⟩ q).recv_window_size = min WS (m.toNat - 1)) := by
  simp [negotiate_calling_params, negotiate_called_params, haps, haws, hrps, hrws,
    clamp_window_size]

/-- Witness for C4 with concrete facility lists on both sides, modulo 8:
the window-size 9 from the called side is clamped to 7. -/
theorem facility_negotiation_symmetry_witness :
    (negotiate_calling_params
        ⟨.normal, [.packetSize 256 1024, .windowSize 9 3]⟩
        ⟨.normal, 128, 128, 2, 2⟩).recv_packet_size = 256 ∧
    (negotiate_calling_params
        ⟨.normal, [.packetSize 256 1024, .windowSize 9 3]⟩
        ⟨.normal, 128, 128, 2, 2⟩).send_packet_size = 1024 ∧
    (negotiate_calling_params
        ⟨.normal, [.packetSize 256 1024, .windowSize 9 3]⟩
        ⟨.normal, 128, 128, 2, 2⟩).recv_window_size = 7 ∧
    (negotiate_called_params
        ⟨.normal, [.packetSize 256 1024, .windowSize 9 3]⟩
        ⟨.normal, 128, 128, 2, 2⟩).send_packet_size = 256 ∧
    (negotiate_called_params
        ⟨.normal, [.packetSize 256 1024, .windowSize 9 3]⟩
        ⟨.normal, 128, 128, 2, 2⟩).send_window_size = 7 := by
  have h := facility_negotiation_symmetry 256 1024 9 3 .normal
    [.packetSize 256 1024, .windowSize 9 3] [.packetSize 256 1024, .windowSize 9 3]
    ⟨.normal, 128, 128, 2, 2⟩ ⟨.normal, 128, 128, 2, 2⟩ rfl rfl rfl rfl
  refine ⟨h.1.1, h.1.2.1, ?_, h.2.1, ?_⟩
  · simpa using h.1.2.2.1
  · simpa using h.2.2.2.1

/-- `X3ParamError` from `x3.rs`: the failures an X.3 parameter store can
report. -/
inductive X3ParamError where
  | unsupported
  | invalidValue
deriving DecidableEq, Repr

/-- `u8::is_ascii_alphanumeric`: digits 0-9, upper-case A-Z, lower-case
a-z. -/
def is_ascii_alphanumeric (b : Nat) : Bool :=
  (48 ≤ b && b ≤ 57) || (65 ≤ b && b ≤ 90) || (97 ≤ b && b ≤ 122)

/-- `X3Forward::is_match` from `x3.rs`: the chain of per-class tests, each
guarded by a bit of the 7-bit P3 mask, tried in source order with an early
true return. -/
def x3_forward_is_match (forward byte : Nat) : Bool :=
  if forward &&& 1 == 1 && is_ascii_alphanumeric byte then true
  else if forward &&& 2 == 2 && byte == 0x0d then true
  else if forward &&& 4 == 4 && [0x1b, 0x07, 0x05, 0x06].contains byte then true
  else if forward &&& 8 == 8 && [0x7f, 0x18, 0x12].contains byte then true
  else if forward &&& 16 == 16 && [0x04, 0x03].contains byte then true
  else if forward &&& 32 == 32 && [0x09, 0x0a, 0x0b, 0x0c].contains byte then true
  else if forward &&& 64 == 64 &&
      ([0x00, 0x01, 0x02, 0x08, 0x0e, 0x0f, 0x10, 0x11, 0x13, 0x14, 0x15, 0x16,
        0x17, 0x19, 0x1a, 0x1c, 0x1d, 0x1e, 0x1f].contains byte) then true
  else false

/-- `TryFrom<u8> for X3Forward` from `x3.rs`: only 7-bit masks are valid
P3 values. -/
def x3_forward_try_from (value : Nat) : Except X3ParamError Nat :=
  if value > 127 then .error .invalidValue else .ok value

/-- The P3 forwarding predicate as the claim words it: a byte matches a
mask exactly when some set bit of the mask selects a character class
containing the byte (bit 0 value 1: alphanumerics; bit 1 value 2: CR;
bit 2 value 4: ESC BEL ENQ ACK; bit 3 value 8: DEL CAN DC2; bit 4 value
16: EOT ETX; bit 5 value 32: HT LF VT FF; bit 6 value 64: the 19
remaining C0 controls). -/
def forward_class_match (m b : Nat) : Bool :=
  (m.testBit 0 && is_ascii_alphanumeric b) ||
  (m.testBit 1 && b == 0x0d) ||
  (m.testBit 2 && [0x1b, 0x07, 0x05, 0x06].contains b) ||
  (m.testBit 3 && [0x7f, 0x18, 0x12].contains b) ||
  (m.testBit 4 && [0x04, 0x03].contains b) ||
  (m.testBit 5 && [0x09, 0x0a, 0x0b, 0x0c].contains b) ||
  (m.testBit 6 && ([0x00, 0x01, 0x02, 0x08, 0x0e, 0x0f, 0x10, 0x11, 0x13, 0x14,
      0x15, 0x16, 0x17, 0x19, 0x1a, 0x1c, 0x1d, 0x1e, 0x1f].contains b))

theorem if_or_form (c r : Bool) : (if c then true else r) = (c || r) := by
  cases c <;> simp

theorem mask_bit_atoms : ∀ m < 128,
    ((m &&& 1 == 1) = m.testBit 0) ∧ ((m &&& 2 == 2) = m.testBit 1) ∧
    ((m &&& 4 == 4) = m.testBit 2) ∧ ((m &&& 8 == 8) = m.testBit 3) ∧
    ((m &&& 16 == 16) = m.testBit 4) ∧ ((m &&& 32 == 32) = m.testBit 5) ∧
    ((m &&& 64 == 64) = m.testBit 6) := by decide

/-- C6: over the whole byte range and all 7-bit masks, the source's
forwarding test agrees with the OR of the per-class membership tests the
claim lists, and constructing an X3Forward from a value above 127 fails
with InvalidValue. -/
theorem p3_forward_predicate_table :
    (∀ m, m < 128 → ∀ b, b < 256 → x3_forward_is_match m b = forward_class_match m b) ∧
    (∀ v, 127 < v → x3_forward_try_from v = .error .invalidValue) := by
  constructor
  · intro m hm b _
    obtain ⟨h1, h2, h3, h4, h5, h6, h7⟩ := mask_bit_atoms m hm
    simp only [x3_forward_is_match, if_or_form, Bool.or_false]
    rw [h1, h2, h3, h4, h5, h6, h7]
    simp only [forward_class_match, Bool.or_assoc]
  · intro v hv
    simp [x3_forward_try_from, hv]

/-- Witness for C6 at the default P3 mask 126 with byte CR, and the first
invalid mask 128. -/
theorem p3_forward_predicate_table_witness :
    x3_forward_is_match 126 0x0d = forward_class_match 126 0x0d ∧
    x3_forward_try_from 128 = .error .invalidValue := by
  exact ⟨p3_forward_predicate_table.1 126 (by decide) 0x0d (by decide),
    p3_forward_predicate_table.2 128 (by decide)⟩

/-- `X3LfInsert::after_send` from `x3.rs`: insert LF after a sent CR when
bit 1 (value 2) of P13 is set. -/
def lf_after_send (lf_insert byte : Nat) : Bool :=
  byte == 0x0d && lf_insert &&& 2 == 2

/-- `X3LfInsert::after_echo` from `x3.rs`: insert LF after an echoed CR
when bit 2 (value 4) of P13 is set. -/
def lf_after_echo (lf_insert byte : Nat) : Bool :=
  byte == 0x0d && lf_insert &&& 4 == 4

/-- `X3LfInsert::after_recv` from `x3.rs`: insert LF after a received CR
when bit 0 (value 1) of P13 is set. -/
def lf_after_recv (lf_insert byte : Nat) : Bool :=
  byte == 0x0d && lf_insert &&& 1 == 1

/-- `UserPadParams` from `src/src/x3.rs`: the delegated user-PAD store for
parameters 16 (char delete), 17 (line delete) and 18 (line display). -/
structure UserPadParams where
  char_delete : Nat
  line_delete : Nat
  line_display : Nat
deriving DecidableEq, Repr

/-- `UserPadParams::set` with the validators of `src/src/x3.rs`: char
delete only accepts 127, line delete and line display accept values up to
127; any other parameter is unsupported. -/
def UserPadParams.set (u : UserPadParams) (param value : Nat) :
    Except X3ParamError UserPadParams :=
  match param with
  | 16 => if value = 127 then .ok { u with char_delete := value } else .error .invalidValue
  | 17 => if value > 127 then .error .invalidValue else .ok { u with line_delete := value }
  | 18 => if value > 127 then .error .invalidValue else .ok { u with line_display := value }
  | _ => .error .unsupported

/-- `PadParams` from `pad.rs` with the parameter values stored as raw
bytes: echo (P2), forward (P3), idle (P4), lf_insert (P13), editing (P15)
and the optional delegate store. -/
structure PadParams where
  echo : Nat
  forward : Nat
  idle : Nat
  lf_insert : Nat
  editing : Nat
  delegate : Option UserPadParams
deriving DecidableEq, Repr

/-- `PadParams::set` from `pad.rs`: parameters 2, 3, 4, 13, 15 go through
the validating constructors of `x3.rs` (echo and editing accept 0 or 1,
forward accepts 7-bit masks, idle accepts anything, lf_insert accepts
3-bit masks); anything else goes to the delegate when present and is
unsupported otherwise.  The validators fail before the store is mutated. -/
def PadParams.set (p : PadParams) (param value : Nat) : Except X3ParamError PadParams :=
  match param, p.delegate with
  | 2, _ => if value ≤ 1 then .ok { p with echo := value } else .error .invalidValue
  | 3, _ => if value > 127 then .error .invalidValue else .ok { p with forward := value }
  | 4, _ => .ok { p with idle := value }
  | 13, _ => if value > 7 then .error .invalidValue else .ok { p with lf_insert := value }
  | 15, _ => if value ≤ 1 then .ok { p with editing := value } else .error .invalidValue
  | param, some d => (d.set param value).map fun d1 => { p with delegate := some d1 }
  | _, none => .error .unsupported

/-- `Pad::should_echo_write` from `pad.rs`: echo must be enabled, and is
suppressed when editing is enabled and the pad was created with
`should_suppress_echo_when_editing`. -/
def should_echo_write (p : PadParams) (should_suppress_echo_when_editing : Bool) : Bool :=
  if !(p.echo == 1) then false
  else if p.editing == 1 && should_suppress_echo_when_editing then false
  else true

/-- State of the PAD byte queues and the link as `Pad::write` sees them:
the byte send-queue, the byte recv-queue and the list of payloads handed
to `Svc::send` so far (each `send_queued_data` call drains the whole
send-queue into one such payload). -/
structure PadWriteState where
  send_queue : List Byte
  recv_queue : List Byte
  wire : List (List Byte)
deriving DecidableEq, Repr

/-- The per-byte body of the loop in `Pad::write` from `pad.rs`: when echo
applies, push the byte (and an LF when P13 bit 2 applies to a CR) onto the
recv-queue; push the byte (and an LF when P13 bit 1 applies to a CR) onto
the send-queue; when the byte matches P3 or the send-queue has reached the
send packet size, drain the send-queue into one `Svc::send` payload. -/
def pad_write_byte (p : PadParams) (packet_size : Nat) (should_echo : Bool)
    (st : PadWriteState) (byte : Byte) : PadWriteState :=
  let recv_queue :=
    if should_echo then
      st.recv_queue ++ byte :: (if lf_after_echo p.lf_insert byte then [0x0a] else [])
    else st.recv_queue
  let send_queue :=
    st.send_queue ++ byte :: (if lf_after_send p.lf_insert byte then [0x0a] else [])
  if x3_forward_is_match p.forward byte || send_queue.length ≥ packet_size then
    { send_queue := [], recv_queue := recv_queue, wire := st.wire ++ [send_queue] }
  else
    { send_queue := send_queue, recv_queue := recv_queue, wire := st.wire }

/-- The loop of `Pad::write` from `pad.rs` over the bytes of `buf`; the
idle-deadline bookkeeping after the loop touches neither the queues nor
the wire. -/
def pad_write (p : PadParams) (packet_size : Nat) (should_echo : Bool)
    (st : PadWriteState) : List Byte → PadWriteState
  | [] => st
  | b :: rest =>
    pad_write p packet_size should_echo (pad_write_byte p packet_size should_echo st b) rest

/-- The quantization as the claim words it, written independently of
`pad_write`: walk the buffer, grow the pending chunk by each byte and its
inserted LF, and cut a packet after exactly those bytes that match P3 or
make the pending chunk reach the packet size.  Returns the emitted packets
and the leftover chunk. -/
def spec_split (p : PadParams) (packet_size : Nat) (chunk : List Byte) :
    List Byte → List (List Byte) × List Byte
  | [] => ([], chunk)
  | b :: rest =>
    let chunk1 := chunk ++ b :: (if lf_after_send p.lf_insert b then [0x0a] else [])
    if x3_forward_is_match p.forward b || chunk1.length ≥ packet_size then
      let r := spec_split p packet_size [] rest
      (chunk1 :: r.1, r.2)
    else spec_split p packet_size chunk1 rest

/-- The LF-transformed buffer on the send side: each CR is followed by an
inserted LF when P13 bit 1 is set. -/
def lf_send_transform (lf_insert : Nat) (buf : List Byte) : List Byte :=
  (buf.map fun b => b :: (if lf_after_send lf_insert b then [0x0a] else [])).flatten

/-- The LF-transformed buffer on the echo side: each CR is followed by an
inserted LF when P13 bit 2 is set. -/
def lf_echo_transform (lf_insert : Nat) (buf : List Byte) : List Byte :=
  (buf.map fun b => b :: (if lf_after_echo lf_insert b then [0x0a] else [])).flatten

theorem pad_write_split (p : PadParams) (n : Nat) (e : Bool) (buf : List Byte)
    (chunk rq : List Byte) (w : List (List Byte)) :
    pad_write p n e ⟨chunk, rq, w⟩ buf =
      ⟨(spec_split p n chunk buf).2,
        rq ++ (if e then lf_echo_transform p.lf_insert buf else []),
        w ++ (spec_split p n chunk buf).1⟩ := by
  induction buf generalizing chunk rq w with
  | nil => cases e <;> simp [pad_write, spec_split, lf_echo_transform]
  | cons b rest ih =>
    simp only [pad_write, pad_write_byte, spec_split]
    by_cases h :
        (x3_forward_is_match p.forward b ||
          (chunk ++ b :: (if lf_after_send p.lf_insert b then [0x0a] else [])).length ≥ n) = true
    · simp only [h, if_true]
      rw [ih]
      cases e <;> simp [lf_echo_transform]
    · simp only [h, if_false]
      rw [ih]
      cases e <;> simp [lf_echo_transform]

theorem spec_split_flatten (p : PadParams) (n : Nat) (chunk : List Byte) (buf : List Byte) :
    ((spec_split p n chunk buf).1).flatten ++ (spec_split p n chunk buf).2 =
      chunk ++ lf_send_transform p.lf_insert buf := by
  induction buf generalizing chunk with
  | nil => simp [spec_split, lf_send_transform]
  | cons b rest ih =>
    simp only [spec_split]
    by_cases h :
        (x3_forward_is_match p.forward b ||
          (chunk ++ b :: (if lf_after_send p.lf_insert b then [0x0a] else [])).length ≥ n) = true
    · simp only [h, if_true, List.flatten_cons]
      rw [List.append_assoc, ih]
      simp [lf_send_transform]
    · simp only [h]
      simp only [Bool.false_eq_true, if_false]
      rw [ih]
      simp [lf_send_transform]

/-- C5: after `Pad::write(buf)` starting from an empty byte send-queue,
the send-queue received every byte of `buf` in order with an LF inserted
after each CR when P13 bit 1 is set, the recv-queue was extended with the
echo of every byte in order (an LF after each CR when P13 bit 2 is set)
exactly when echo applies, and the send-queue was drained into `Svc::send`
exactly at each byte that matches the P3 forwarding predicate or that
makes the send-queue length reach the packet size, so the payload
sequence handed to `Svc::send` together with the leftover queue equals the
LF-transformed `buf` split at exactly those points. -/
theorem pad_write_quantization (p : PadParams) (packet_size : Nat)
    (suppress : Bool) (recv0 : List Byte) (buf : List Byte) :
    pad_write p packet_size (should_echo_write p suppress) ⟨[], recv0, []⟩ buf =
      ⟨(spec_split p packet_size [] buf).2,
        recv0 ++
          (if should_echo_write p suppress then lf_echo_transform p.lf_insert buf else []),
        (spec_split p packet_size [] buf).1⟩ ∧
    ((spec_split p packet_size [] buf).1).flatten ++ (spec_split p packet_size [] buf).2 =
      lf_send_transform p.lf_insert buf := by
  constructor
  · simpa using pad_write_split p packet_size (should_echo_write p suppress) buf [] recv0 []
  · simpa using spec_split_flatten p packet_size [] buf

/-- One wake of the loop in `Pad::read` from `pad.rs`, with the byte
recv-queue and the end flag as observed under the queue lock: an empty
buffer returns immediately with 0 bytes read; otherwise up to `buf_len`
bytes are popped from the front of the queue; with no byte available the
call returns 0 bytes if end is signalled and blocks (modelled as `none`)
otherwise.  Returns the bytes read and the remaining queue. -/
def pad_read (buf_len : Nat) (queue : List Byte) (recv_end : Bool) :
    Option (List Byte × List Byte) :=
  if buf_len = 0 then some ([], queue)
  else if queue.length > 0 then some (queue.take buf_len, queue.drop buf_len)
  else if recv_end then some ([], queue)
  else none

/-- C8 counterexample: `Pad::read` into an empty buffer returns 0 bytes
immediately although end has not been signalled (and it does not block),
contradicting the claim that 0 is returned only when end has been
signalled after blocking for data. -/
theorem pad_read_zero_without_end : pad_read 0 [] false = some ([], []) := rfl

/-- C8 (amended to non-empty buffers): for a non-empty buffer, `Pad::read`
blocks exactly while the queue is empty and end is not signalled;
otherwise it returns at most `buf_len` bytes popped from the queue front
in FIFO order (the rest of the queue is untouched), and it returns 0
bytes only when end has been signalled and the queue is empty. -/
theorem pad_read_fifo (n : Nat) (q : List Byte) (e : Bool) (hn : 0 < n) :
    (pad_read n q e = none ↔ q = [] ∧ e = false) ∧
    (∀ taken rest, pad_read n q e = some (taken, rest) →
      taken = q.take n ∧ rest = q.drop n ∧ taken.length ≤ n ∧ taken ++ rest = q ∧
      (taken = [] → e = true ∧ q = [])) := by
  have hn0 : n ≠ 0 := Nat.pos_iff_ne_zero.mp hn
  constructor
  · cases q <;> cases e <;> simp [pad_read, hn0]
  · intro taken rest h
    have hval : pad_read n q e = some (q.take n, q.drop n) ∧ (q = [] → e = true) := by
      cases q with
      | nil =>
        cases e with
        | false => simp [pad_read, hn0] at h
        | true => exact ⟨by simp [pad_read, hn0], fun _ => rfl⟩
      | cons a l => exact ⟨by simp [pad_read, hn0], by simp⟩
    have heq : (q.take n, q.drop n) = (taken, rest) :=
      Option.some_inj.mp (hval.1.symm.trans h)
    obtain ⟨ht, hr⟩ := Prod.ext_iff.mp heq
    simp only at ht hr
    subst ht
    subst hr
    refine ⟨rfl, rfl, ?_, List.take_append_drop n q, ?_⟩
    · rw [List.length_take]
      exact Nat.min_le_left n q.length
    · intro hempty
      cases q with
      | nil => exact ⟨hval.2 rfl, rfl⟩
      | cons a l =>
        cases n with
        | zero => exact absurd rfl hn0
        | succ m => simp at hempty

/-- Witness for C8, applying the amended theorem at a singleton queue and
at the empty blocking queue. -/
theorem pad_read_fifo_witness :
    pad_read 1 [] false = none ∧ ([5] : List Byte) = List.take 1 [5] := by
  refine ⟨(pad_read_fifo 1 [] false (by decide)).1.mpr ⟨rfl, rfl⟩, ?_⟩
  exact ((pad_read_fifo 1 [5] false (by decide)).2 [5] [] rfl).1

/-- The request and response payloads of X.29 PAD messages
(`X29PadMessage` in `x29.rs`): requests are (parameter, value) pairs,
responses pair a parameter with a value or an error. -/
inductive X29PadMessage where
  | set (request : List (Nat × Nat))
  | read (request : List Nat)
  | setRead (request : List (Nat × Nat))
  | indicate (response : List (Nat × Except X3ParamError Nat))
  | clearInvitation
deriving Repr

/-- `set_params` from `pad.rs`, acting on the concrete `PadParams` store
the PAD reader thread uses: an empty request hits `todo!()` (the thread
panics; modelled as `none`); otherwise every pair is applied to the store
in list order and an Indicate response is produced only when at least one
set failed, carrying exactly the failed entries with their errors. -/
def set_params (params : PadParams) (request : List (Nat × Nat)) :
    Option (PadParams × Option X29PadMessage) :=
  if request.isEmpty then none
  else
    let r := request.foldl
      (fun acc pv =>
        match acc.1.set pv.1 pv.2 with
        | .ok p1 => (p1, acc.2)
        | .error err => (acc.1, acc.2 ++ [(pv.1, Except.error err)]))
      (params, ([] : List (Nat × Except X3ParamError Nat)))
    some (r.1, if r.2.isEmpty then none else some (.indicate r.2))

/-- The Set handling as the claim words it, written independently of
`set_params`: apply each (parameter, value) pair in list order and
collect, in order, exactly the entries whose set failed together with
their errors. -/
def spec_set_outcome (params : PadParams) :
    List (Nat × Nat) → PadParams × List (Nat × Except X3ParamError Nat)
  | [] => (params, [])
  | pv :: rest =>
    match params.set pv.1 pv.2 with
    | .ok p1 => spec_set_outcome p1 rest
    | .error err =>
      let r := spec_set_outcome params rest
      (r.1, (pv.1, Except.error err) :: r.2)

theorem set_params_foldl (request : List (Nat × Nat)) (params : PadParams)
    (acc : List (Nat × Except X3ParamError Nat)) :
    request.foldl
      (fun acc pv =>
        match acc.1.set pv.1 pv.2 with
        | .ok p1 => (p1, acc.2)
        | .error err => (acc.1, acc.2 ++ [(pv.1, Except.error err)]))
      (params, acc) =
      ((spec_set_outcome params request).1, acc ++ (spec_set_outcome params request).2) := by
  induction request generalizing params acc with
  | nil => simp [spec_set_outcome]
  | cons pv rest ih =>
    simp only [List.foldl_cons, spec_set_outcome]
    cases hset : params.set pv.1 pv.2 with
    | ok p1 => simp [hset, ih]
    | error err => simp [hset, ih]

/-- C7 counterexample: on the empty X.29 Set request the source hits
`todo!()` — the PAD reader thread panics and no response of any kind is
produced — so the claim that the PAD rejects the empty request by
responding with InvalidValue fails. -/
theorem set_params_empty_request_panics :
    set_params ⟨1, 126, 0, 0, 0, none⟩ [] = none := rfl

/-- C7 (amended: the empty request panics instead of answering
InvalidValue): a non-empty Set request is applied to the parameter store
pair by pair in list order, the response is an Indicate message carrying
exactly the entries whose set failed with their errors, and no response
is produced when every entry succeeds; the empty request hits `todo!()`
and produces nothing. -/
theorem set_params_apply_order (params : PadParams) (request : List (Nat × Nat))
    (hne : request ≠ []) :
    set_params params request =
      some ((spec_set_outcome params request).1,
        if (spec_set_outcome params request).2.isEmpty then none
        else some (.indicate (spec_set_outcome params request).2)) ∧
    set_params params [] = none := by
  constructor
  · have hne1 : request.isEmpty = false := by
      cases request with
      | nil => exact absurd rfl hne
      | cons a l => rfl
    simp only [set_params, hne1, if_false]
    rw [set_params_foldl]
    simp
  · rfl

/-- Witness for C7 at a concrete request over the default store: setting
P2 to 0 succeeds, setting P2 to 5 fails InvalidValue, setting unknown
parameter 99 with no delegate fails Unsupported; the response carries
exactly the two failures. -/
theorem set_params_apply_order_witness :
    set_params ⟨1, 126, 0, 0, 0, none⟩ [(2, 0), (2, 5), (99, 1)] =
      some (⟨0, 126, 0, 0, 0, none⟩,
        some (.indicate
          [(2, Except.error X3ParamError.invalidValue),
           (99, Except.error X3ParamError.unsupported)])) := by
  have h := (set_params_apply_order ⟨1, 126, 0, 0, 0, none⟩ [(2, 0), (2, 5), (99, 1)]
    (by simp)).1
  rw [h]
  rfl

/-- Outcome of the registration step of `send_message_recv_indicate`. -/
inductive RegisterOutcome where
  | registered (channel : Option Nat)
  | pendingRemoteCommand
deriving DecidableEq, Repr

/-- The registration step of `send_message_recv_indicate` from `pad.rs`:
with a waiter already registered the source hits
`todo!("pending remote command")` — no second waiter is ever stored;
otherwise the new waiter's channel sender (identified here by a number)
is stored in the slot. -/
def register_indicate_waiter (channel : Option Nat) (waiter : Nat) : RegisterOutcome :=
  match channel with
  | some _ => .pendingRemoteCommand
  | none => .registered (some waiter)

/-- The Indicate arm of the PAD reader thread in `Pad::new` from `pad.rs`:
`channel.take()` empties the slot in every case; when a waiter was
registered the response is delivered to it, otherwise the message is
dropped.  Returns the slot afterwards and the delivery, if any. -/
def handle_indicate (channel : Option Nat)
    (response : List (Nat × Except X3ParamError Nat)) :
    Option Nat × Option (Nat × List (Nat × Except X3ParamError Nat)) :=
  match channel with
  | some w => (none, some (w, response))
  | none => (none, none)

/-- C10: the indicate slot holds at most one waiter (it is an `Option`):
registering while a waiter is outstanding is refused (the source panics
before storing anything), registering into the empty slot stores exactly
the new waiter, a received Indicate takes the registered waiter — leaving
the slot empty, so each remote request gets at most one response — and an
Indicate arriving with no registered waiter is discarded with the slot
still empty and nothing delivered. -/
theorem indicate_channel_single_waiter :
    (∀ (c : Option Nat) (w : Nat), c.isSome = true →
      register_indicate_waiter c w = .pendingRemoteCommand) ∧
    (∀ w : Nat, register_indicate_waiter none w = .registered (some w)) ∧
    (∀ (w : Nat) (resp : List (Nat × Except X3ParamError Nat)),
      handle_indicate (some w) resp = (none, some (w, resp))) ∧
    (∀ resp : List (Nat × Except X3ParamError Nat),
      handle_indicate none resp = (none, none)) := by
  refine ⟨?_, fun w => rfl, fun w resp => rfl, fun resp => rfl⟩
  intro c w hc
  cases c with
  | none => simp at hc
  | some x => rfl

/-- Witness for C10 at a concrete occupied slot and one delivery. -/
theorem indicate_channel_single_waiter_witness :
    register_indicate_waiter (some 1) 2 = .pendingRemoteCommand ∧
    handle_indicate (some 1) [(2, Except.ok 0)] = (none, some (1, [(2, Except.ok 0)])) := by
  exact ⟨indicate_channel_single_waiter.1 (some 1) 2 rfl,
    indicate_channel_single_waiter.2.2.1 1 [(2, Except.ok 0)]⟩

end Xotpad
